import Mathlib

set_option linter.unusedVariables false

/-!
Verification of the core render-state logic of `sl.c` (the sigil 2D
rendering/sound wrapper).  The file shallowly embeds the parts of the
source that the specification talks about:

* the fixed-capacity transform stack (`slPush` / `slPop` /
  `slTranslate`-style transforms), lines 227-269 of `sl.c`;
* the batch-flush discipline of the drawing entry points, modelled as
  traces of backend (`sli*` / GL) calls;
* the frame timer of `slRender` / `slGetDeltaTime` (lines 166-198),
  with real arithmetic idealised over the rationals;
* window-precondition checks of the loading entry points, with
  `Option` as the embedding of fatal `fprintf`+`exit(1)` (`none` means
  the process terminates; `some` means the call returns normally).

The 4x4 matrix type `Mat4` and the functions `translate` / `rotate` /
`scale` live in `util/transform.h`, outside the file under analysis,
so matrices are kept as an abstract type parameter `M` and transforms
as arbitrary functions `M → M`: every claim proved here is independent
of the concrete matrix arithmetic.
-/

namespace Sigil

/-- A transform stack as `sl.c` maintains it: `slMatrixStack` is an
array of 32 matrices, `slCurrentMatrix` points at the slot holding the
current matrix, `slStackSize` is the index of that slot.  We model the
occupied prefix of the array as `top` (the slot `slCurrentMatrix`
points at) plus `rest` (the slots below it, nearest first), so the
C variable `slStackSize` equals `rest.length`. -/
structure MStack (M : Type) where
  top : M
  rest : List M
  deriving DecidableEq, Repr

/-- The C variable `slStackSize`: the depth of the stack, 0 when only
the base slot is occupied. -/
def MStack.depth {M : Type} (s : MStack M) : Nat :=
  s.rest.length

/-- Capacity of the stack array (`SL_MATRIX_STACK_SIZE` in `sl.c`). -/
def SL_MATRIX_STACK_SIZE : Nat := 32

/-- Embedding of `slPush` (sl.c lines 227-240): if
`slStackSize < SL_MATRIX_STACK_SIZE - 1` the depth is incremented and
the new current slot receives a copy of the previous current matrix;
otherwise the process exits fatally (`none`). -/
def slPush {M : Type} (s : MStack M) : Option (MStack M) :=
  if s.depth < SL_MATRIX_STACK_SIZE - 1 then
    some ⟨s.top, s.top :: s.rest⟩
  else
    none

/-- Embedding of `slPop` (sl.c lines 242-254): if `slStackSize > 0`
the depth is decremented and the current-matrix pointer moves down one
slot; otherwise the process exits fatally (`none`). -/
def slPop {M : Type} (s : MStack M) : Option (MStack M) :=
  match s with
  | ⟨_, m :: ms⟩ => some ⟨m, ms⟩
  | ⟨_, []⟩ => none

/-- Embedding of `slTranslate` / `slRotate` / `slScale`
(sl.c lines 256-269): each replaces the current matrix by a function
of it (`*slCurrentMatrix = f(*slCurrentMatrix)`); the concrete `f`
comes from `util/transform.h` and is kept abstract. -/
def slTransform {M : Type} (f : M → M) (s : MStack M) : MStack M :=
  ⟨f s.top, s.rest⟩

/-- Application of a sequence of transform calls, first element
first. -/
def applyTransforms {M : Type} : List (M → M) → MStack M → MStack M
  | [], s => s
  | f :: fs, s => applyTransforms fs (slTransform f s)

/-- A push or pop call, for reasoning about call sequences. -/
inductive StackOp where
  | push
  | pop
  deriving DecidableEq, Repr

/-- Run a sequence of `slPush` / `slPop` calls; the result is `none`
as soon as one of them is fatal. -/
def runOps {M : Type} : List StackOp → MStack M → Option (MStack M)
  | [], s => some s
  | StackOp.push :: rest, s => (slPush s).bind (runOps rest)
  | StackOp.pop :: rest, s => (slPop s).bind (runOps rest)

/-- Number of `push` calls in a sequence. -/
def pushCount : List StackOp → Nat
  | [] => 0
  | StackOp.push :: rest => pushCount rest + 1
  | StackOp.pop :: rest => pushCount rest

/-- Number of `pop` calls in a sequence. -/
def popCount : List StackOp → Nat
  | [] => 0
  | StackOp.push :: rest => popCount rest
  | StackOp.pop :: rest => popCount rest + 1

theorem applyTransforms_rest {M : Type} (fs : List (M → M)) (s : MStack M) :
    (applyTransforms fs s).rest = s.rest := by
  induction fs generalizing s with
  | nil => rfl
  | cons f fs ih => simpa [applyTransforms, slTransform] using ih (slTransform f s)

theorem runOps_depth {M : Type} (ops : List StackOp) (s s' : MStack M)
    (h : runOps ops s = some s') :
    (s'.depth : ℤ) = (s.depth : ℤ) + pushCount ops - popCount ops := by
  induction ops generalizing s with
  | nil =>
    simp [runOps] at h
    subst h
    simp [pushCount, popCount]
  | cons op rest ih =>
    cases op with
    | push =>
      simp only [runOps, slPush, SL_MATRIX_STACK_SIZE] at h
      split at h
      · simp only [Option.some_bind] at h
        have := ih _ h
        simp only [MStack.depth, List.length_cons] at this ⊢
        simp only [pushCount, popCount]
        push_cast at this ⊢
        omega
      · simp at h
    | pop =>
      simp only [runOps, slPop] at h
      match s with
      | ⟨m, x :: xs⟩ =>
        simp only [Option.some_bind] at h
        have := ih _ h
        simp only [MStack.depth, List.length_cons] at this ⊢
        simp only [pushCount, popCount]
        push_cast at this ⊢
        omega
      | ⟨m, []⟩ => simp at h

/-- C2: for every push/pop sequence that stays within bounds (i.e.
completes without a fatal error), the final depth equals the initial
depth plus pushes minus pops; immediately after a successful `slPush`
the new top equals the previous top; and a `slPush`, followed by any
sequence of transform calls, followed by `slPop`, restores the exact
pre-push stack state (in particular the current matrix). -/
theorem stack_discipline {M : Type} :
    (∀ (ops : List StackOp) (s s' : MStack M), runOps ops s = some s' →
      (s'.depth : ℤ) = (s.depth : ℤ) + pushCount ops - popCount ops) ∧
    (∀ s s' : MStack M, slPush s = some s' → s'.top = s.top) ∧
    (∀ (s s' : MStack M) (fs : List (M → M)), slPush s = some s' →
      slPop (applyTransforms fs s') = some s) := by
  refine ⟨runOps_depth, ?_, ?_⟩
  · intro s s' h
    simp only [slPush] at h
    split at h
    · exact (Option.some_inj.mp h) ▸ rfl
    · exact absurd h (by simp)
  · intro s s' fs h
    simp only [slPush] at h
    split at h
    · have hs' : s' = ⟨s.top, s.top :: s.rest⟩ := (Option.some_inj.mp h).symm
      subst hs'
      have hrest := applyTransforms_rest fs (⟨s.top, s.top :: s.rest⟩ : MStack M)
      simp only [slPop]
      match hat : applyTransforms fs (⟨s.top, s.top :: s.rest⟩ : MStack M) with
      | ⟨t, r⟩ =>
        rw [hat] at hrest
        simp only at hrest
        subst hrest
        rfl
    · exact absurd h (by simp)

/-- Witness for `stack_discipline`: a concrete run over natural-number
"matrices".  Pushing twice and popping once from depth 0 ends at
depth 1; a push copies the top; push, add-three on the top, pop
restores the original stack. -/
theorem stack_discipline_witness :
    ((⟨(7 : ℕ), [7]⟩ : MStack ℕ).depth : ℤ) =
      ((⟨(7 : ℕ), []⟩ : MStack ℕ).depth : ℤ) + pushCount [StackOp.push, StackOp.push, StackOp.pop]
        - popCount [StackOp.push, StackOp.push, StackOp.pop] ∧
    (⟨(7 : ℕ), [7]⟩ : MStack ℕ).top = (⟨(7 : ℕ), []⟩ : MStack ℕ).top ∧
    slPop (applyTransforms [fun m => m + 3] (⟨(7 : ℕ), [7]⟩ : MStack ℕ)) =
      some (⟨(7 : ℕ), []⟩ : MStack ℕ) := by
  obtain ⟨ha, hb, hc⟩ := stack_discipline (M := ℕ)
  refine ⟨?_, ?_, ?_⟩
  · exact ha [StackOp.push, StackOp.push, StackOp.pop] ⟨7, []⟩ ⟨7, [7]⟩ (by decide)
  · exact hb ⟨7, []⟩ ⟨7, [7]⟩ (by decide)
  · exact hc ⟨7, []⟩ ⟨7, [7]⟩ [fun m => m + 3] (by decide)

/-- C3: `slPush` at depth 31 (the last slot of the 32-entry array) is
fatal, `slPop` at depth 0 is fatal, and within those bounds both calls
succeed without terminating. -/
theorem stack_fatal_bounds {M : Type} :
    (∀ s : MStack M, s.depth = 31 → slPush s = none) ∧
    (∀ s : MStack M, s.depth = 0 → slPop s = none) ∧
    (∀ s : MStack M, s.depth < 31 → (slPush s).isSome) ∧
    (∀ s : MStack M, 0 < s.depth → (slPop s).isSome) := by
  refine ⟨?_, ?_, ?_, ?_⟩
  · intro s h
    simp [slPush, SL_MATRIX_STACK_SIZE, h]
  · intro s h
    match s with
    | ⟨m, []⟩ => rfl
    | ⟨m, x :: xs⟩ => simp [MStack.depth] at h
  · intro s h
    simp [slPush, SL_MATRIX_STACK_SIZE, h]
  · intro s h
    match s with
    | ⟨m, []⟩ => simp [MStack.depth] at h
    | ⟨m, x :: xs⟩ => rfl

/-- Witness for `stack_fatal_bounds`: evaluated at a stack of depth 31
(push is fatal), a stack of depth 0 (pop is fatal), and stacks safely
inside the bounds. -/
theorem stack_fatal_bounds_witness :
    slPush (⟨(0 : ℕ), List.replicate 31 0⟩ : MStack ℕ) = none ∧
    slPop (⟨(0 : ℕ), []⟩ : MStack ℕ) = none ∧
    (slPush (⟨(0 : ℕ), List.replicate 30 0⟩ : MStack ℕ)).isSome ∧
    (slPop (⟨(0 : ℕ), [5]⟩ : MStack ℕ)).isSome := by
  obtain ⟨ha, hb, hc, hd⟩ := stack_fatal_bounds (M := ℕ)
  refine ⟨?_, ?_, ?_, ?_⟩
  · exact ha ⟨0, List.replicate 31 0⟩ (by decide)
  · exact hb ⟨0, []⟩ (by decide)
  · exact hc ⟨0, List.replicate 30 0⟩ (by decide)
  · exact hd ⟨0, [5]⟩ (by decide)

/-- A call into the rendering / audio / windowing backend, as issued
by the bodies of the `sl*` entry points in `sl.c`.  Matrix payloads
(built by `translate`/`scale` from `util/transform.h`) are elided;
scalar and string arguments that the source forwards verbatim are
kept. -/
inductive SLEvent where
  | pointsFlush
  | linesFlush
  | textFlush
  | triangleFillDraw (x y width height : ℚ)
  | triangleOutlineDraw (x y width height : ℚ)
  | rectangleFillDraw (x y width height : ℚ)
  | rectangleOutlineDraw (x y width height : ℚ)
  | circleFillDraw (x y radius : ℚ) (numVertices : ℤ)
  | circleOutlineDraw (x y radius : ℚ) (numVertices : ℤ)
  | pointDraw (x y : ℚ)
  | lineDraw (x1 y1 x2 y2 : ℚ)
  | spriteDraw (texture : ℤ) (x y width height : ℚ)
  | textDraw (x y : ℚ) (text : String)
  | pollAndSwap
  | glClear
  | soundPlay (sound : ℤ)
  | soundLoop (sound : ℤ)
  | soundPause (sound : ℤ)
  | soundStop (sound : ℤ)
  | soundPauseAllCall
  | soundResumeAllCall
  | soundStopAllCall
  | soundPlaying (sound : ℤ)
  | soundLooping (sound : ℤ)
  | textWidthQuery (text : String)
  | textHeightQuery (text : String)
  | fontSizeSet (size : ℤ)
  | fontLoad (filename : String) (size : ℤ)
  | keyQuery (key : ℤ)
  | mouseButtonQuery (button : ℤ)
  | mousePosQuery
  deriving DecidableEq, Repr

/-- Embedding of `slTriangleFill` (sl.c lines 356-365): flush points,
lines and text, then issue the triangle draw. -/
def slTriangleFill (x y width height : ℚ) : List SLEvent :=
  [SLEvent.pointsFlush, SLEvent.linesFlush, SLEvent.textFlush,
    SLEvent.triangleFillDraw x y width height]

/-- Embedding of `slTriangleOutline` (sl.c lines 367-376). -/
def slTriangleOutline (x y width height : ℚ) : List SLEvent :=
  [SLEvent.pointsFlush, SLEvent.linesFlush, SLEvent.textFlush,
    SLEvent.triangleOutlineDraw x y width height]

/-- Embedding of `slRectangleFill` (sl.c lines 378-387). -/
def slRectangleFill (x y width height : ℚ) : List SLEvent :=
  [SLEvent.pointsFlush, SLEvent.linesFlush, SLEvent.textFlush,
    SLEvent.rectangleFillDraw x y width height]

/-- Embedding of `slRectangleOutline` (sl.c lines 389-398). -/
def slRectangleOutline (x y width height : ℚ) : List SLEvent :=
  [SLEvent.pointsFlush, SLEvent.linesFlush, SLEvent.textFlush,
    SLEvent.rectangleOutlineDraw x y width height]

/-- Embedding of `slCircleFill` (sl.c lines 400-408). -/
def slCircleFill (x y radius : ℚ) (numVertices : ℤ) : List SLEvent :=
  [SLEvent.pointsFlush, SLEvent.linesFlush, SLEvent.textFlush,
    SLEvent.circleFillDraw x y radius numVertices]

/-- Embedding of `slCircleOutline` (sl.c lines 410-418). -/
def slCircleOutline (x y radius : ℚ) (numVertices : ℤ) : List SLEvent :=
  [SLEvent.pointsFlush, SLEvent.linesFlush, SLEvent.textFlush,
    SLEvent.circleOutlineDraw x y radius numVertices]

/-- Embedding of `slPoint` (sl.c lines 420-427): flushes only the
lines and text batches (the point joins the point batch). -/
def slPoint (x y : ℚ) : List SLEvent :=
  [SLEvent.linesFlush, SLEvent.textFlush, SLEvent.pointDraw x y]

/-- Embedding of `slLine` (sl.c lines 429-437): flushes only the
points and text batches. -/
def slLine (x1 y1 x2 y2 : ℚ) : List SLEvent :=
  [SLEvent.pointsFlush, SLEvent.textFlush, SLEvent.lineDraw x1 y1 x2 y2]

/-- Embedding of `slSprite` (sl.c lines 451-464): flush points, lines
and text, then issue the sprite draw. -/
def slSprite (texture : ℤ) (x y width height : ℚ) : List SLEvent :=
  [SLEvent.pointsFlush, SLEvent.linesFlush, SLEvent.textFlush,
    SLEvent.spriteDraw texture x y width height]

/-- Modelled from the spec: the `SL_ALIGN_LEFT` constant of `sl.h`
(the header is not under `src/`); the spec fixes left/center/right to
the values 0-2 in that order. -/
def SL_ALIGN_LEFT : ℤ := 0

/-- Modelled from the spec: the `SL_ALIGN_CENTER` constant of `sl.h`
(the header is not under `src/`). -/
def SL_ALIGN_CENTER : ℤ := 1

/-- Modelled from the spec: the `SL_ALIGN_RIGHT` constant of `sl.h`
(the header is not under `src/`). -/
def SL_ALIGN_RIGHT : ℤ := 2

/-- The horizontal offset `slText` (sl.c lines 513-520) adds to its
`x` argument before drawing: `-width/2` for center alignment,
`-width` for right alignment, nothing otherwise.  `textWidth` stands
for `slGetTextWidth(text)`, whose value comes from the font backend. -/
def slTextOffset (align : ℤ) (textWidth : ℚ) : ℚ :=
  if align = SL_ALIGN_CENTER then -textWidth / 2
  else if align = SL_ALIGN_RIGHT then -textWidth
  else 0

/-- Embedding of `slText` (sl.c lines 509-525): apply the
alignment-dependent offset, flush only the points and lines batches,
then add the text to the text batch.  `align` is the current value of
the `slTextAlign` register and `textWidth` the backend-measured width
of `text`. -/
def slText (align : ℤ) (textWidth : ℚ) (x y : ℚ) (text : String) : List SLEvent :=
  [SLEvent.pointsFlush, SLEvent.linesFlush,
    SLEvent.textDraw (x + slTextOffset align textWidth) y text]

/-- C1: the batch-flush discipline of every draw call.  Shapes and
sprites flush points, lines and text before their own draw; `slPoint`
flushes only lines and text; `slLine` flushes only points and text;
`slText` flushes only points and lines. -/
theorem batch_flush_discipline :
    (∀ x y w h : ℚ,
      slTriangleFill x y w h =
        [SLEvent.pointsFlush, SLEvent.linesFlush, SLEvent.textFlush,
          SLEvent.triangleFillDraw x y w h] ∧
      slTriangleOutline x y w h =
        [SLEvent.pointsFlush, SLEvent.linesFlush, SLEvent.textFlush,
          SLEvent.triangleOutlineDraw x y w h] ∧
      slRectangleFill x y w h =
        [SLEvent.pointsFlush, SLEvent.linesFlush, SLEvent.textFlush,
          SLEvent.rectangleFillDraw x y w h] ∧
      slRectangleOutline x y w h =
        [SLEvent.pointsFlush, SLEvent.linesFlush, SLEvent.textFlush,
          SLEvent.rectangleOutlineDraw x y w h]) ∧
    (∀ (x y r : ℚ) (n : ℤ),
      slCircleFill x y r n =
        [SLEvent.pointsFlush, SLEvent.linesFlush, SLEvent.textFlush,
          SLEvent.circleFillDraw x y r n] ∧
      slCircleOutline x y r n =
        [SLEvent.pointsFlush, SLEvent.linesFlush, SLEvent.textFlush,
          SLEvent.circleOutlineDraw x y r n]) ∧
    (∀ (t : ℤ) (x y w h : ℚ),
      slSprite t x y w h =
        [SLEvent.pointsFlush, SLEvent.linesFlush, SLEvent.textFlush,
          SLEvent.spriteDraw t x y w h]) ∧
    (∀ x y : ℚ,
      slPoint x y = [SLEvent.linesFlush, SLEvent.textFlush, SLEvent.pointDraw x y]) ∧
    (∀ x1 y1 x2 y2 : ℚ,
      slLine x1 y1 x2 y2 =
        [SLEvent.pointsFlush, SLEvent.textFlush, SLEvent.lineDraw x1 y1 x2 y2]) ∧
    (∀ (a : ℤ) (w x y : ℚ) (t : String),
      slText a w x y t =
        [SLEvent.pointsFlush, SLEvent.linesFlush,
          SLEvent.textDraw (x + slTextOffset a w) y t]) := by
  exact ⟨fun x y w h => ⟨rfl, rfl, rfl, rfl⟩, fun x y r n => ⟨rfl, rfl⟩,
    fun t x y w h => rfl, fun x y => rfl, fun x1 y1 x2 y2 => rfl,
    fun a w x y t => rfl⟩

/-- Embedding of `slSoundPauseAll` (sl.c lines 329-332): the body
calls the backend entry point `sliSoundResumeAll`, not
`sliSoundPauseAll`. -/
def slSoundPauseAll : List SLEvent :=
  [SLEvent.soundResumeAllCall]

/-- Embedding of `slSoundResumeAll` (sl.c lines 334-337): the body
calls `sliSoundResumeAll`. -/
def slSoundResumeAll : List SLEvent :=
  [SLEvent.soundResumeAllCall]

/-- C5: evaluation of the code at the failing input.  `slSoundPauseAll`
does not invoke the backend pause-all entry point: it invokes
resume-all, exactly as `slSoundResumeAll` does. -/
theorem soundPauseAll_calls_resumeAll :
    slSoundPauseAll = [SLEvent.soundResumeAllCall] ∧
    slSoundResumeAll = [SLEvent.soundResumeAllCall] ∧
    slSoundPauseAll = slSoundResumeAll :=
  ⟨rfl, rfl, rfl⟩

/-- The frame-timing state of `sl.c` (lines 54-56): the exposed delta,
the previous frame timestamp and the current frame timestamp.
Real-number arithmetic is idealised over the rationals. -/
structure TimerState where
  slDeltaTime : ℚ
  slOldFrameTime : ℚ
  slNewFrameTime : ℚ
  deriving DecidableEq, Repr

/-- The `IDEAL_FRAME_TIME` constant of `sl.c` (line 35). -/
def IDEAL_FRAME_TIME : ℚ := 0.01666667

/-- The initial values of the timing statics (sl.c lines 54-56),
before `slRender` has ever run. -/
def initTimerState : TimerState :=
  { slDeltaTime := IDEAL_FRAME_TIME
    slOldFrameTime := 0
    slNewFrameTime := IDEAL_FRAME_TIME }

/-- The `SL_MIN_DELTA_TIME` constant local to `slRender` (line 176). -/
def SL_MIN_DELTA_TIME : ℚ := 0.00001

/-- The `SL_MAX_DELTA_TIME` constant local to `slRender` (line 177). -/
def SL_MAX_DELTA_TIME : ℚ := 0.5

/-- Embedding of `slRender` (sl.c lines 173-198).  `now` is the value
returned by the backend clock query `sliGetTime()`.  The result is the
trace of backend calls issued, paired with the updated timing state:
the three batch flushes, then `sliPollAndSwap` and `glClear`, then the
timestamps shift and the delta is computed and clamped (first raised
to `SL_MIN_DELTA_TIME`, then capped at `SL_MAX_DELTA_TIME`). -/
def slRender (now : ℚ) (s : TimerState) : List SLEvent × TimerState :=
  let trace := [SLEvent.pointsFlush, SLEvent.linesFlush, SLEvent.textFlush,
    SLEvent.pollAndSwap, SLEvent.glClear]
  let oldT := s.slNewFrameTime
  let newT := now
  let dt0 := newT - oldT
  let dt1 := if dt0 < SL_MIN_DELTA_TIME then SL_MIN_DELTA_TIME else dt0
  let dt2 := if dt1 > SL_MAX_DELTA_TIME then SL_MAX_DELTA_TIME else dt1
  (trace, { slDeltaTime := dt2, slOldFrameTime := oldT, slNewFrameTime := newT })

/-- Embedding of `slGetDeltaTime` (sl.c lines 166-169). -/
def slGetDeltaTime (s : TimerState) : ℚ :=
  s.slDeltaTime

/-- C4: after any `slRender` call, the reported delta is the raw
difference `now - previous` clamped into
`[SL_MIN_DELTA_TIME, SL_MAX_DELTA_TIME] = [0.00001, 0.5]`. -/
theorem deltaTime_clamped (now : ℚ) (s : TimerState) :
    (now - s.slNewFrameTime < 0.00001 →
      slGetDeltaTime (slRender now s).2 = 0.00001) ∧
    (now - s.slNewFrameTime > 0.5 →
      slGetDeltaTime (slRender now s).2 = 0.5) ∧
    (0.00001 ≤ now - s.slNewFrameTime → now - s.slNewFrameTime ≤ 0.5 →
      slGetDeltaTime (slRender now s).2 = now - s.slNewFrameTime) := by
  refine ⟨?_, ?_, ?_⟩
  · intro hlt
    simp only [slRender, slGetDeltaTime, SL_MIN_DELTA_TIME, SL_MAX_DELTA_TIME]
    rw [if_pos hlt, if_neg (by norm_num)]
  · intro hgt
    simp only [slRender, slGetDeltaTime, SL_MIN_DELTA_TIME, SL_MAX_DELTA_TIME]
    rw [if_neg (show ¬(now - s.slNewFrameTime < 0.00001) by linarith)]
    rw [if_pos hgt]
  · intro hlo hhi
    simp only [slRender, slGetDeltaTime, SL_MIN_DELTA_TIME, SL_MAX_DELTA_TIME]
    rw [if_neg (show ¬(now - s.slNewFrameTime < 0.00001) by linarith)]
    rw [if_neg (show ¬(now - s.slNewFrameTime > 0.5) by linarith)]

/-- Witness for `deltaTime_clamped`, starting from the initial timer
state: a clock step of zero clamps up to 0.00001, a step of one second
clamps down to 0.5, and a step of 0.1 seconds is reported raw. -/
theorem deltaTime_clamped_witness :
    slGetDeltaTime (slRender initTimerState.slNewFrameTime initTimerState).2 = 0.00001 ∧
    slGetDeltaTime (slRender (initTimerState.slNewFrameTime + 1) initTimerState).2 = 0.5 ∧
    slGetDeltaTime (slRender (initTimerState.slNewFrameTime + 1/10) initTimerState).2 = 1/10 := by
  refine ⟨?_, ?_, ?_⟩
  · exact (deltaTime_clamped initTimerState.slNewFrameTime initTimerState).1
      (by norm_num)
  · exact (deltaTime_clamped (initTimerState.slNewFrameTime + 1) initTimerState).2.1
      (by norm_num)
  · have h := (deltaTime_clamped (initTimerState.slNewFrameTime + 1/10) initTimerState).2.2
      (by norm_num) (by norm_num)
    rw [h]
    norm_num

/-- C6: every `slRender` call flushes all three batches, in order,
before `sliPollAndSwap` (presenting the back buffer) and `glClear`
(clearing the new front buffer); and the timing state is replaced by
exactly one shift-and-clamp update of the previous state. -/
theorem render_flushes_and_updates_timer (now : ℚ) (s : TimerState) :
    (slRender now s).1 =
      [SLEvent.pointsFlush, SLEvent.linesFlush, SLEvent.textFlush,
        SLEvent.pollAndSwap, SLEvent.glClear] ∧
    (slRender now s).2.slOldFrameTime = s.slNewFrameTime ∧
    (slRender now s).2.slNewFrameTime = now ∧
    (slRender now s).2.slDeltaTime =
      min (max (now - s.slNewFrameTime) SL_MIN_DELTA_TIME) SL_MAX_DELTA_TIME := by
  refine ⟨rfl, rfl, rfl, ?_⟩
  simp only [slRender, SL_MIN_DELTA_TIME, SL_MAX_DELTA_TIME]
  rcases lt_or_le (now - s.slNewFrameTime) 0.00001 with hlt | hge
  · rw [if_pos hlt, if_neg (by norm_num), max_eq_right hlt.le,
      min_eq_left (by norm_num)]
  · rw [max_eq_left hge]
    rcases le_or_lt (now - s.slNewFrameTime) 0.5 with hle | hgt
    · rw [if_neg (not_lt.mpr hge), if_neg (not_lt.mpr hle), min_eq_left hle]
    · rw [if_neg (not_lt.mpr hge), if_pos hgt, min_eq_right hgt.le]

/-- C9: before `slRender` has ever been called, `slGetDeltaTime`
returns the ideal frame time constant 0.01666667. -/
theorem initial_deltaTime :
    slGetDeltaTime initTimerState = 0.01666667 ∧ IDEAL_FRAME_TIME = 0.01666667 :=
  ⟨rfl, rfl⟩

/-- Embedding of `slSetTextAlign` (sl.c lines 468-479): values 0..2
are stored in the `slTextAlign` register (returned here); anything
else prints a message and exits (`none`). -/
def slSetTextAlign (fontAlign : ℤ) : Option ℤ :=
  if 0 ≤ fontAlign ∧ fontAlign ≤ 2 then some fontAlign else none

/-- C7: out-of-range alignment values are fatal, 0..2 are accepted,
and the accepted value determines the horizontal offset of subsequent
`slText` calls: none for left, minus half the measured width for
center, minus the full measured width for right. -/
theorem textAlign_validation :
    (∀ a : ℤ, a < 0 ∨ 2 < a → slSetTextAlign a = none) ∧
    (∀ a : ℤ, 0 ≤ a → a ≤ 2 → slSetTextAlign a = some a) ∧
    (∀ w : ℚ, slTextOffset SL_ALIGN_LEFT w = 0) ∧
    (∀ w : ℚ, slTextOffset SL_ALIGN_CENTER w = -(w / 2)) ∧
    (∀ w : ℚ, slTextOffset SL_ALIGN_RIGHT w = -w) ∧
    (∀ (x y w : ℚ) (t : String),
      slText SL_ALIGN_LEFT w x y t =
        [SLEvent.pointsFlush, SLEvent.linesFlush, SLEvent.textDraw x y t] ∧
      slText SL_ALIGN_CENTER w x y t =
        [SLEvent.pointsFlush, SLEvent.linesFlush, SLEvent.textDraw (x - w / 2) y t] ∧
      slText SL_ALIGN_RIGHT w x y t =
        [SLEvent.pointsFlush, SLEvent.linesFlush, SLEvent.textDraw (x - w) y t]) := by
  refine ⟨?_, ?_, ?_, ?_, ?_, ?_⟩
  · intro a ha
    rcases ha with ha | ha <;> simp [slSetTextAlign] <;> omega
  · intro a h0 h2
    simp [slSetTextAlign, h0, h2]
  · intro w
    simp [slTextOffset, SL_ALIGN_LEFT, SL_ALIGN_CENTER, SL_ALIGN_RIGHT]
  · intro w
    simp [slTextOffset, SL_ALIGN_CENTER]
    ring
  · intro w
    simp [slTextOffset, SL_ALIGN_RIGHT, SL_ALIGN_CENTER]
  · intro x y w t
    refine ⟨?_, ?_, ?_⟩
    · simp [slText, slTextOffset, SL_ALIGN_LEFT, SL_ALIGN_CENTER, SL_ALIGN_RIGHT]
    · simp only [slText, slTextOffset, SL_ALIGN_CENTER, List.cons.injEq]
      norm_num
      ring
    · simp only [slText, slTextOffset, SL_ALIGN_RIGHT, SL_ALIGN_CENTER, List.cons.injEq]
      norm_num
      ring

/-- Witness for `textAlign_validation`: 3 and -1 are rejected fatally,
1 is accepted, and right alignment at width 10 shifts by -10. -/
theorem textAlign_validation_witness :
    slSetTextAlign 3 = none ∧ slSetTextAlign (-1) = none ∧
    slSetTextAlign 1 = some 1 ∧ slTextOffset SL_ALIGN_RIGHT 10 = -10 := by
  obtain ⟨ha, hb, _, _, he, _⟩ := textAlign_validation
  exact ⟨ha 3 (Or.inr (by norm_num)), ha (-1) (Or.inl (by norm_num)),
    hb 1 (by norm_num) (by norm_num), he 10⟩

/-- Embedding of `slLoadTexture` (sl.c lines 273-288): fatal before a
window exists; with a window open, the backend loader's result (a
handle, or the sentinel -1 on failure, per the texture-loader
contract) is returned to the caller unchanged. -/
def slLoadTexture (windowOpen : Bool) (filename : String) (backendResult : ℤ) :
    Option ℤ :=
  if windowOpen then some backendResult else none

/-- Embedding of `slLoadWAV` (sl.c lines 292-307): fatal before a
window exists; with a window open, `sliLoadWAV`'s result (handle or
-1) is returned unchanged. -/
def slLoadWAV (windowOpen : Bool) (filename : String) (backendResult : ℤ) :
    Option ℤ :=
  if windowOpen then some backendResult else none

/-- Embedding of `slSetFont` (sl.c lines 491-502): fatal before a
window exists, otherwise forwards to the font backend. -/
def slSetFont (windowOpen : Bool) (fontFilename : String) (fontSize : ℤ) :
    Option (List SLEvent) :=
  if windowOpen then some [SLEvent.fontLoad fontFilename fontSize] else none

/-- C8: loading a texture or sound before window creation is fatal;
after window creation a failed load returns the sentinel -1 to the
caller without terminating the process (the backend result, -1
included, is passed through as a normal return). -/
theorem load_precondition (filename : String) (r : ℤ) :
    slLoadTexture false filename r = none ∧
    slLoadWAV false filename r = none ∧
    slLoadTexture true filename r = some r ∧
    slLoadWAV true filename r = some r ∧
    slLoadTexture true filename (-1) = some (-1) ∧
    slLoadWAV true filename (-1) = some (-1) :=
  ⟨rfl, rfl, rfl, rfl, rfl, rfl⟩

/-- Embedding of `slSoundPlay` (sl.c lines 309-312): an unconditional
forward to `sliSoundPlay`, with no window check.  The `windowOpen`
argument threads the global window state to show independence from
it. -/
def slSoundPlay (windowOpen : Bool) (sound : ℤ) : Option (List SLEvent) :=
  some [SLEvent.soundPlay sound]

/-- Embedding of `slSoundLoop` (sl.c lines 314-317): unconditional
forward to `sliSoundLoop`. -/
def slSoundLoop (windowOpen : Bool) (sound : ℤ) : Option (List SLEvent) :=
  some [SLEvent.soundLoop sound]

/-- Embedding of `slSoundPause` (sl.c lines 319-322): unconditional
forward to `sliSoundPause`. -/
def slSoundPause (windowOpen : Bool) (sound : ℤ) : Option (List SLEvent) :=
  some [SLEvent.soundPause sound]

/-- Embedding of `slSoundStop` (sl.c lines 324-327): unconditional
forward to `sliSoundStop`. -/
def slSoundStop (windowOpen : Bool) (sound : ℤ) : Option (List SLEvent) :=
  some [SLEvent.soundStop sound]

/-- Embedding of `slSoundStopAll` (sl.c lines 339-342): unconditional
forward to `sliSoundStopAll`. -/
def slSoundStopAll (windowOpen : Bool) : Option (List SLEvent) :=
  some [SLEvent.soundStopAllCall]

/-- Embedding of `slSoundPlaying` (sl.c lines 344-347): unconditional
forward to `sliSoundPlaying`. -/
def slSoundPlaying (windowOpen : Bool) (sound : ℤ) : Option (List SLEvent) :=
  some [SLEvent.soundPlaying sound]

/-- Embedding of `slSoundLooping` (sl.c lines 349-352): unconditional
forward to `sliSoundLooping`. -/
def slSoundLooping (windowOpen : Bool) (sound : ℤ) : Option (List SLEvent) :=
  some [SLEvent.soundLooping sound]

/-- Embedding of `slGetTextWidth` (sl.c lines 481-484): unconditional
forward to `sliTextWidth`. -/
def slGetTextWidth (windowOpen : Bool) (text : String) : Option (List SLEvent) :=
  some [SLEvent.textWidthQuery text]

/-- Embedding of `slGetTextHeight` (sl.c lines 486-489): unconditional
forward to `sliTextHeight`. -/
def slGetTextHeight (windowOpen : Bool) (text : String) : Option (List SLEvent) :=
  some [SLEvent.textHeightQuery text]

/-- Embedding of `slSetFontSize` (sl.c lines 504-507): unconditional
forward to `sliFontSize`. -/
def slSetFontSize (windowOpen : Bool) (fontSize : ℤ) : Option (List SLEvent) :=
  some [SLEvent.fontSizeSet fontSize]

/-- Embedding of `slGetKey` (sl.c lines 149-152): unconditional
forward to `sliGetKey`. -/
def slGetKey (windowOpen : Bool) (key : ℤ) : Option (List SLEvent) :=
  some [SLEvent.keyQuery key]

/-- Embedding of `slGetMouseButton` (sl.c lines 154-157):
unconditional forward to `sliGetMouseButton`. -/
def slGetMouseButton (windowOpen : Bool) (button : ℤ) : Option (List SLEvent) :=
  some [SLEvent.mouseButtonQuery button]

/-- Embedding of `slGetMousePos` (sl.c lines 159-162): unconditional
forward to `sliGetMousePos`. -/
def slGetMousePos (windowOpen : Bool) : Option (List SLEvent) :=
  some [SLEvent.mousePosQuery]

/-- Embedding of the window-existence guard of `slShouldClose`
(sl.c lines 136-145): fatal when no window exists, otherwise forwards
to `sliShouldClose`, whose result is `backendShouldClose`. -/
def slShouldClose (windowOpen : Bool) (backendShouldClose : Bool) : Option Bool :=
  if windowOpen then some backendShouldClose else none

/-- Embedding of the window-existence guard of `slClose`
(sl.c lines 122-134): fatal when no window exists, otherwise the
resources are destroyed and the window closed. -/
def slClose (windowOpen : Bool) : Option Unit :=
  if windowOpen then some () else none

/-- Embedding of the window-existence guard of `slWindow`
(sl.c lines 65-120): fatal when a window already exists, otherwise the
window is created (the GL setup inside the body is elided). -/
def slWindow (windowOpen : Bool) : Option Unit :=
  if windowOpen then none else some ()

/-- C10: the sound, text-measurement, font-size and input-query entry
points perform no window check and never terminate: for every window
state they return the same unconditional backend forward; only the
loading entry points (`slLoadTexture`, `slLoadWAV`, `slSetFont`) and
the window-lifecycle entry points (`slWindow`, `slClose`,
`slShouldClose`) consult the window state and are fatal in the wrong
state. -/
theorem no_window_check_ops :
    (∀ (w : Bool) (sound : ℤ),
      slSoundPlay w sound = some [SLEvent.soundPlay sound] ∧
      slSoundLoop w sound = some [SLEvent.soundLoop sound] ∧
      slSoundPause w sound = some [SLEvent.soundPause sound] ∧
      slSoundStop w sound = some [SLEvent.soundStop sound] ∧
      slSoundPlaying w sound = some [SLEvent.soundPlaying sound] ∧
      slSoundLooping w sound = some [SLEvent.soundLooping sound]) ∧
    (∀ w : Bool, slSoundStopAll w = some [SLEvent.soundStopAllCall]) ∧
    (∀ (w : Bool) (t : String),
      slGetTextWidth w t = some [SLEvent.textWidthQuery t] ∧
      slGetTextHeight w t = some [SLEvent.textHeightQuery t]) ∧
    (∀ (w : Bool) (n : ℤ), slSetFontSize w n = some [SLEvent.fontSizeSet n]) ∧
    (∀ (w : Bool) (k : ℤ),
      slGetKey w k = some [SLEvent.keyQuery k] ∧
      slGetMouseButton w k = some [SLEvent.mouseButtonQuery k]) ∧
    (∀ w : Bool, slGetMousePos w = some [SLEvent.mousePosQuery]) ∧
    (∀ (f : String) (r : ℤ),
      slLoadTexture false f r = none ∧ slLoadWAV false f r = none ∧
      slSetFont false f r = none) ∧
    (∀ b : Bool,
      slShouldClose false b = none ∧ slClose false = none ∧ slWindow true = none) :=
  ⟨fun w sound => ⟨rfl, rfl, rfl, rfl, rfl, rfl⟩, fun w => rfl,
    fun w t => ⟨rfl, rfl⟩, fun w n => rfl, fun w k => ⟨rfl, rfl⟩,
    fun w => rfl, fun f r => ⟨rfl, rfl, rfl⟩, fun b => ⟨rfl, rfl, rfl⟩⟩

end Sigil
